import Mathlib

/-!
Verification of the nw-music-review venue-explorer-api search subsystem.

The Python source is shallowly embedded: SQLAlchemy tables become Lean lists of
records, SQL predicates become decidable Lean predicates, `ORDER BY` becomes
`List.insertionSort` with the corresponding comparison relation (a deterministic
model of the database's sort), and pydantic model construction becomes a checked
constructor returning `Except`.  Repository methods whose query can never
execute — the CASE/array expressions built with `func.case`/`func.array`, which
render invalid SQL, and queries issued against the pydantic (non-ORM) `Venue`
class — are modelled as `Except` errors, since every call raises instead of
returning rows.
-/

namespace VenueExplorer

/-! ## Case-insensitive string matching (SQL LOWER / ILIKE semantics)

`ilike '%term%'` is case-insensitive substring containment, `like lower('term%')`
on a lowered column is case-insensitive prefix, and `lower(a) = lower(b)` is
case-insensitive equality.  SQL wildcards inside the term itself are not
modelled; terms are treated as plain strings. -/

/-- `LOWER(s)`, as a character list. -/
def lowerStr (s : String) : List Char :=
  s.data.map Char.toLower

/-- Case-insensitive equality: `lower(s) = lower(t)`. -/
def iequals (s t : String) : Bool :=
  lowerStr s == lowerStr t

/-- Case-insensitive prefix test: `lower(s) LIKE lower('t%')`. -/
def istartsWith (s t : String) : Bool :=
  (lowerStr t).isPrefixOf (lowerStr s)

/-- `needle` occurs as a contiguous sublist of `hay`. -/
def charsInfixOf (needle : List Char) : List Char → Bool
  | [] => needle.isEmpty
  | c :: rest => needle.isPrefixOf (c :: rest) || charsInfixOf needle rest

/-- Case-insensitive substring test: `s ILIKE '%t%'`. -/
def icontains (s t : String) : Bool :=
  charsInfixOf (lowerStr t) (lowerStr s)

/-- `column ILIKE '%t%'` on a nullable column: SQL NULL compares to NULL,
which is not TRUE, so a missing value never matches. -/
def ioptContains (s : Option String) (t : String) : Bool :=
  match s with
  | some v => icontains v t
  | none => false

/-! ## Data model (app/models/orm.py, app/schemas/models.py) -/

/-- Geographic point; `x` is longitude, `y` is latitude (app/schemas/models.py `GeoPoint`). -/
structure GeoPoint where
  x : Rat
  y : Rat
deriving Repr, DecidableEq

/-- Artist row: id, name, genres array (app/models/orm.py `Artist`). -/
structure Artist where
  id : Nat
  name : String
  genres : List String
deriving Repr, DecidableEq

/-- Venue row (app/models/orm.py `Venue`); fields used by the claims. -/
structure Venue where
  id : Nat
  name : String
  city_id : Nat
  coordinates : GeoPoint
  capacity : Option Int
  prosper_rank : Int
deriving Repr, DecidableEq

/-- Event row together with its associated artists (the `EventArtist`
association rows joined to `Artist`).  `event_datetime` is an epoch timestamp. -/
structure Event where
  id : Nat
  venue_id : Nat
  title : String
  description : Option String
  event_datetime : Int
  artists : List Artist
deriving Repr, DecidableEq

/-! ## PaginationResult (app/event_repository.py lines 15-24; identical copies in
app/repositories/city_repository.py and app/repositories/artist_repository.py)

```python
self.total_pages = math.ceil(total / limit) if limit > 0 else 0
self.has_next = page < self.total_pages
self.has_prev = page > 1
```

`total` is a row count and `page`/`limit` are validated request parameters, so
all three are nonnegative integers; `math.ceil(total / limit)` on nonnegative
integers with `limit > 0` is the natural number `(total + limit - 1) / limit`. -/

structure PaginationResult (α : Type) where
  data : List α
  total : Nat
  page : Nat
  limit : Nat
  total_pages : Nat
  has_next : Bool
  has_prev : Bool
deriving Repr, DecidableEq

/-- The `PaginationResult.__init__` constructor. -/
def PaginationResult.make (data : List α) (total page limit : Nat) : PaginationResult α :=
  let total_pages := if 0 < limit then (total + limit - 1) / limit else 0
  { data := data
    total := total
    page := page
    limit := limit
    total_pages := total_pages
    has_next := decide (page < total_pages)
    has_prev := decide (1 < page) }

/-! ## Exceptions raised inside the repository layer -/

/-- Exception raised while building or executing a database query. -/
inductive DbError where
  /-- The driver rejects the statement: invalid SQL text or unadaptable bind
  parameters reached it. -/
  | programmingError (construct : String)
  /-- `db.query(C)` was called with a class `C` that is not a mapped ORM
  entity (here: the pydantic schema class of the same name). -/
  | unmappedClass (name : String)
deriving Repr, DecidableEq

/-! ## ArtistRepository.search_by_name_or_genre
(app/repositories/artist_repository.py lines 49-77)

```python
ranking_case = func.case(
    (func.lower(Artist.name) == func.lower(search_term), 1),
    (func.lower(Artist.name).like(func.lower(starts_with_pattern)), 2),
    (func.lower(Artist.name).like(func.lower(search_pattern)), 3),
    (Artist.genres.op("&&")(func.array([search_term])), 4),
    else_=5)
return self.db.query(Artist).filter(
    or_(Artist.name.ilike(search_pattern),
        Artist.genres.op("&&")(func.array([search_term])))
).order_by(ranking_case, Artist.name).limit(limit).all()
```

`func.case` and `func.array` are generic SQL function-call generators, not the
`sqlalchemy.case()` / `postgresql.array()` constructs: the `(condition, value)`
tuples become bind parameters holding expression objects (which no driver can
adapt), the `else_` keyword is swallowed, and the rendered statement —
`case(%(p)s, ...)` and `array(...)` — is a syntax error on every backend (CASE
is not callable as a function without WHEN/END; ARRAY(...) requires a
subquery).  Every invocation therefore raises instead of returning rows.  The
tier-ranking definitions below transcribe what the CASE expression and WHERE
clause attempt to express (the ranking documented in the method's docstring
and in spec section 4.2), for comparison with the claims. -/

/-- The match tier the broken CASE expression attempts to assign to an artist
for a search term. -/
def artistRankingCase (search_term : String) (a : Artist) : Nat :=
  if iequals a.name search_term then 1
  else if istartsWith a.name search_term then 2
  else if icontains a.name search_term then 3
  else if a.genres.contains search_term then 4
  else 5

/-- The WHERE clause's intent: name contains the term (case-insensitive) or
the genres array overlaps `{search_term}` (exact element match).  The genre
half also renders as invalid SQL (`func.array`). -/
def artistMatchFilter (search_term : String) (a : Artist) : Bool :=
  icontains a.name search_term || a.genres.contains search_term

/-- `search_by_name_or_genre`: query construction always produces invalid SQL
(see the section comment), so every call raises; no ranked list is ever
returned. -/
def search_by_name_or_genre (db : List Artist) (search_term : String) (limit : Nat) :
    Except DbError (List Artist) :=
  .error (.programmingError "func.case / func.array")

/-! ## EventRepository.search_events (app/event_repository.py lines 208-234)

```python
query = self.db.query(Event).join(EventArtist).join(Artist).options(...).filter(
    or_(Event.title.ilike(search_pattern),
        Event.description.ilike(search_pattern),
        Artist.name.ilike(search_pattern)))
...
events = query.order_by(Event.event_datetime.asc()).offset((page - 1) * limit).limit(limit).all()
```

The inner joins produce one row per (event, associated artist) pair; an event
with no `EventArtist` rows contributes no rows at all.  The row for artist `a`
of event `e` passes the filter when the term occurs in `e.title`, in
`e.description`, or in `a.name`.  `ORDER BY`, `OFFSET` and `LIMIT` execute in
SQL on those join rows; only afterwards does the legacy `Query.all()` convert
each surviving row to its `Event` entity and deduplicate the entities
(keeping the first occurrence), so a page window is counted in join rows, not
in distinct events. -/

/-- Filter predicate on one join row (event `e` joined with its artist `a`). -/
def eventRowMatch (search_term : String) (e : Event) (a : Artist) : Bool :=
  icontains e.title search_term || ioptContains e.description search_term ||
    icontains a.name search_term

/-- Event-level summary of join plus filter: `e` has a surviving join row iff
some of its (event, artist) pairs passes the filter. -/
def eventJoinFilter (search_term : String) (e : Event) : Bool :=
  e.artists.any (fun a => eventRowMatch search_term e a)

/-- The (event, artist) rows of `Event JOIN EventArtist JOIN Artist`. -/
def eventJoinRows (db : List Event) : List (Event × Artist) :=
  db.flatMap (fun e => e.artists.map (fun a => (e, a)))

/-- `ORDER BY Event.event_datetime ASC`, as seen by an entity. -/
def eventDatetimeLe (e₁ e₂ : Event) : Prop :=
  e₁.event_datetime ≤ e₂.event_datetime

/-- `ORDER BY Event.event_datetime ASC` on a join row. -/
def eventRowLe (r₁ r₂ : Event × Artist) : Prop :=
  r₁.1.event_datetime ≤ r₂.1.event_datetime

instance : DecidableRel eventRowLe := fun r₁ r₂ =>
  decidable_of_iff (r₁.1.event_datetime ≤ r₂.1.event_datetime) Iff.rfl

instance : IsTotal (Event × Artist) eventRowLe :=
  ⟨fun r₁ r₂ => le_total r₁.1.event_datetime r₂.1.event_datetime⟩

instance : IsTrans (Event × Artist) eventRowLe :=
  ⟨fun _ _ _ h1 h2 => le_trans h1 h2⟩

/-- The filtered join rows ordered by `event_datetime` ascending
(`insertionSort` deterministically models the database sort; rows with equal
datetimes stay in join order). -/
def search_events_rows (db : List Event) (search_term : String) :
    List (Event × Artist) :=
  ((eventJoinRows db).filter (fun r => eventRowMatch search_term r.1 r.2)).insertionSort
    eventRowLe

/-- Entity deduplication performed by the legacy `Query.all()`: keep the first
occurrence of each event, in order.  `seen` accumulates the events already
emitted. -/
def dedupFirstAux (seen : List Event) : List Event → List Event
  | [] => []
  | e :: rest =>
    if e ∈ seen then dedupFirstAux seen rest
    else e :: dedupFirstAux (e :: seen) rest

/-- Deduplicate a list of events, keeping first occurrences. -/
def dedupFirst (l : List Event) : List Event :=
  dedupFirstAux [] l

/-- The full, unpaginated result sequence of the query (no OFFSET/LIMIT): the
events of the ordered surviving join rows, deduplicated. -/
def search_events_all (db : List Event) (search_term : String) : List Event :=
  dedupFirst ((search_events_rows db search_term).map Prod.fst)

/-- The page returned by `search_events`: `OFFSET (page-1)*limit LIMIT limit`
applied in SQL to the ordered join rows, then entity conversion and
deduplication.  (The source wraps this data list in a `PaginationResult`; the
claims below concern the data sequence.) -/
def search_events (db : List Event) (search_term : String) (page limit : Nat) :
    List Event :=
  dedupFirst
    ((((search_events_rows db search_term).drop ((page - 1) * limit)).take limit).map
      Prod.fst)

theorem dedupFirstAux_sublist (seen : List Event) :
    ∀ l : List Event, List.Sublist (dedupFirstAux seen l) l := by
  intro l
  induction l generalizing seen with
  | nil => exact List.Sublist.refl _
  | cons e rest ih =>
    rw [dedupFirstAux]
    by_cases h : e ∈ seen
    · rw [if_pos h]
      exact (ih seen).cons e
    · rw [if_neg h]
      exact (ih (e :: seen)).cons₂ e

theorem dedupFirst_sublist (l : List Event) : List.Sublist (dedupFirst l) l :=
  dedupFirstAux_sublist [] l

theorem mem_dedupFirstAux {x : Event} :
    ∀ (seen l : List Event), x ∈ dedupFirstAux seen l ↔ x ∈ l ∧ x ∉ seen := by
  intro seen l
  induction l generalizing seen with
  | nil => simp [dedupFirstAux]
  | cons e rest ih =>
    rw [dedupFirstAux]
    by_cases h : e ∈ seen
    · rw [if_pos h, ih]
      constructor
      · rintro ⟨hx, hs⟩
        exact ⟨List.mem_cons_of_mem _ hx, hs⟩
      · rintro ⟨hx, hs⟩
        rcases List.mem_cons.mp hx with rfl | hx
        · exact absurd h hs
        · exact ⟨hx, hs⟩
    · rw [if_neg h]
      simp only [List.mem_cons, ih, not_or]
      constructor
      · rintro (rfl | ⟨hx, hxe, hs⟩)
        · exact ⟨Or.inl rfl, h⟩
        · exact ⟨Or.inr hx, hs⟩
      · rintro ⟨hxe, hs⟩
        by_cases hx : x = e
        · exact Or.inl hx
        · rcases hxe with rfl | hxr
          · exact absurd rfl hx
          · exact Or.inr ⟨hxr, hx, hs⟩

theorem mem_dedupFirst {x : Event} {l : List Event} : x ∈ dedupFirst l ↔ x ∈ l := by
  rw [dedupFirst, mem_dedupFirstAux]
  simp

/-- Any event drawn from a sublist of the ordered surviving join rows is a
stored event with a matching associated artist. -/
theorem mem_db_of_mem_rows_fst {db : List Event} {t : String}
    {l : List (Event × Artist)} (hl : List.Sublist l (search_events_rows db t)) {e : Event}
    (h : e ∈ l.map Prod.fst) :
    e ∈ db ∧ ∃ a ∈ e.artists, eventRowMatch t e a = true := by
  obtain ⟨r, hr, hre⟩ := List.mem_map.mp h
  have hrows : r ∈ search_events_rows db t := hl.subset hr
  have hfil : r ∈ (eventJoinRows db).filter (fun r => eventRowMatch t r.1 r.2) :=
    (List.mem_insertionSort eventRowLe).mp hrows
  obtain ⟨hjoin, hmatch⟩ := List.mem_filter.mp hfil
  obtain ⟨e', he', hr'⟩ := List.mem_flatMap.mp hjoin
  obtain ⟨a, ha, hra⟩ := List.mem_map.mp hr'
  subst hra
  obtain rfl : e' = e := hre
  exact ⟨he', a, ha, hmatch⟩

/-! ## VenueRepository.find_nearby (app/repositories/venue_repository.py lines 24-39)

```python
query = self.db.query(Venue)
if min_capacity is not None:
    query = query.filter(Venue.capacity >= min_capacity)
# Add distance calculation and filtering logic here
# For now, return limited results
return query.limit(limit).all()
```

The module imports `Venue` from `app.schemas.models` (line 8) — the pydantic
schema class, not the mapped ORM entity in `app.models.orm` — so the very
first step `self.db.query(Venue)` raises an unmapped-class error on every
call, before any capacity filter, distance logic (which is absent anyway:
"Add distance calculation and filtering logic here"), or limit could apply.
`point` and `radius_km` are never read. -/

def find_nearby (db : List Venue) (point : GeoPoint) (radius_km : Rat) (limit : Nat)
    (min_capacity : Option Int) : Except DbError (List Venue) :=
  .error (.unmappedClass "Venue")

/-! ## Request/response schemas (app/schemas/models.py) -/

/-- Validation failure raised by pydantic / FastAPI parameter checking. -/
inductive ValidationError where
  /-- A declared per-field constraint (`ge`, `le`, `min_length`, `pattern`) failed. -/
  | fieldConstraint (field : String)
  /-- Required model fields were not supplied to the constructor. -/
  | missingFields (fields : List String)
deriving Repr, DecidableEq

/-- `SearchParams` (models.py lines 99-113, with `PaginationParams` and
`SortParams` mixed in).  `page` and `limit` are `Int` because the client may
send any integer; the declared constraints are checked by `validateSearchParams`.
Datetimes are epoch timestamps. -/
structure SearchParams where
  q : String
  type : String := "all"
  page : Int := 1
  limit : Int := 10
  genres : Option (List String) := none
  state_province : Option (List String) := none
  country : Option (List String) := none
  capacity_min : Option Int := none
  capacity_max : Option Int := none
  prosper_rank_min : Option Int := none
  start_date : Option Int := none
  end_date : Option Int := none
  has_tickets : Option Bool := none
  has_bio : Option Bool := none
  has_photo : Option Bool := none
  sort_by : Option String := none
  sort_dir : String := "desc"
deriving Repr, DecidableEq

/-- The declared field constraints of `SearchParams` / the `/search` router's
`Query(...)` declarations (search.py lines 17-34): `q` min_length 1, `type` and
`sort_dir` patterns, `page ≥ 1`, `1 ≤ limit ≤ 50`, the three numeric filters
`≥ 0`.  There is no cross-field constraint relating `capacity_min` and
`capacity_max`. -/
def validateSearchParams (p : SearchParams) : Except ValidationError SearchParams :=
  if p.q.length < 1 then .error (.fieldConstraint "q")
  else if ¬ (p.type = "venue" ∨ p.type = "artist" ∨ p.type = "event" ∨ p.type = "all") then
    .error (.fieldConstraint "type")
  else if p.page < 1 then .error (.fieldConstraint "page")
  else if p.limit < 1 then .error (.fieldConstraint "limit")
  else if 50 < p.limit then .error (.fieldConstraint "limit")
  else if (p.capacity_min.map (fun x => decide (x < 0))).getD false then
    .error (.fieldConstraint "capacity_min")
  else if (p.capacity_max.map (fun x => decide (x < 0))).getD false then
    .error (.fieldConstraint "capacity_max")
  else if (p.prosper_rank_min.map (fun x => decide (x < 0))).getD false then
    .error (.fieldConstraint "prosper_rank_min")
  else if ¬ (p.sort_dir = "asc" ∨ p.sort_dir = "desc") then .error (.fieldConstraint "sort_dir")
  else .ok p

/-- `NearbySearchParams` (models.py lines 116-121). -/
structure NearbySearchParams where
  lat : Rat
  lon : Rat
  radius : Rat := 10
  limit : Int := 20
deriving Repr, DecidableEq

/-- `SearchResultItem` (models.py lines 148-155); the entity payload is
abbreviated to the fields the claims touch. -/
structure SearchResultItem where
  type : String
  id : Nat
  name : String
  description : Option String
  score : Rat
deriving Repr, DecidableEq

/-- Pagination metadata dictionary used in response payloads. -/
structure PageMeta where
  page : Int
  limit : Int
  total_pages : Nat
  has_next : Bool
  has_prev : Bool
deriving Repr, DecidableEq

/-- `SearchResponse` (models.py lines 158-164): `query`, `total`, `results` and
`pagination` are required; `aggregations` defaults to `{}`. -/
structure SearchResponse where
  query : String
  total : Nat
  results : List SearchResultItem
  aggregations : List (String × Nat)
  pagination : PageMeta
deriving Repr, DecidableEq

/-- Keyword arguments of a `SearchResponse(...)` constructor call.  `page` and
`limit` are not fields of `SearchResponse`; pydantic's default configuration
silently ignores unknown keyword arguments, so they carry no effect. -/
structure SearchResponseArgs where
  query : Option String := none
  total : Option Nat := none
  results : Option (List SearchResultItem) := none
  aggregations : Option (List (String × Nat)) := none
  pagination : Option PageMeta := none
  page : Option Int := none
  limit : Option Int := none
deriving Repr, DecidableEq

/-- Names of required `SearchResponse` fields missing from a constructor call,
in field-declaration order. -/
def SearchResponseArgs.missingRequired (args : SearchResponseArgs) : List String :=
  (if args.query.isNone then ["query"] else []) ++
    (if args.total.isNone then ["total"] else []) ++
      (if args.results.isNone then ["results"] else []) ++
        (if args.pagination.isNone then ["pagination"] else [])

/-- pydantic model construction: succeeds when every required field is present
(`aggregations` falls back to its default `{}`), otherwise raises a
`ValidationError` listing the missing fields. -/
def buildSearchResponse (args : SearchResponseArgs) : Except ValidationError SearchResponse :=
  match args.query, args.total, args.results, args.pagination with
  | some q, some t, some r, some p =>
    .ok { query := q, total := t, results := r,
          aggregations := args.aggregations.getD [], pagination := p }
  | _, _, _, _ => .error (.missingFields args.missingRequired)

/-! ## SearchService (app/services/search_service.py lines 15-39)

```python
async def search(self, params: SearchParams) -> SearchResponse:
    # Placeholder implementation - replace with actual search logic
    return SearchResponse(results=[], total=0, page=params.page, limit=params.limit,
                          aggregations={})
```

and the same constructor call with `page=1, limit=params.limit` in
`search_nearby`.  The call never supplies the required `query` and `pagination`
fields, and `page`/`limit` are not `SearchResponse` fields. -/

def SearchService.search (params : SearchParams) : Except ValidationError SearchResponse :=
  buildSearchResponse
    { results := some [], total := some 0,
      page := some params.page, limit := some params.limit,
      aggregations := some [] }

def SearchService.search_nearby (params : NearbySearchParams) (query : Option String)
    (content_type : String) : Except ValidationError SearchResponse :=
  buildSearchResponse
    { results := some [], total := some 0,
      page := some 1, limit := some params.limit,
      aggregations := some [] }

/-- The `/search` endpoint (app/api/routers/search.py lines 17-108): FastAPI
validates the declared per-parameter constraints, the handler assembles
`SearchParams` and delegates to `SearchService.search`. -/
def searchEndpoint (p : SearchParams) : Except ValidationError SearchResponse := do
  let params ← validateSearchParams p
  SearchService.search params

/-! ## Stub EventRepository (app/repositories/event_repository.py lines 14-50)

```python
async def find_upcoming_by_venue(self, venue_id, page=1, limit=10):
    # TODO: Implement actual database query
    return type('Result', (), {'data': [], 'total_pages': 0, 'has_next': False,
                               'has_prev': False, 'total': 0})()
```

Every method returns a constant empty result regardless of the database
contents.  This is the `EventRepository` that `app/api/routers/venues.py`
imports (line 16: `from app.repositories.event_repository import
EventRepository`), not the query-backed one in `app/event_repository.py`. -/

/-- The anonymous `Result` object built by the stub repository methods. -/
structure StubResult where
  data : List Event
  total_pages : Nat
  has_next : Bool
  has_prev : Bool
  total : Nat
deriving Repr, DecidableEq

def stubEventRepository.find_upcoming_by_venue (venue_id : Nat) (page limit : Int) :
    StubResult :=
  { data := [], total_pages := 0, has_next := false, has_prev := false, total := 0 }

def stubEventRepository.find_by_venue (venue_id : Nat) (page limit : Int) : StubResult :=
  { data := [], total_pages := 0, has_next := false, has_prev := false, total := 0 }

/-! ## GET /venues/{venue_id}/events (app/api/routers/venues.py lines 53-100) -/

/-- The persistent store visible to the venues router: the venues table and the
events table (each event carrying its artist associations). -/
structure Database where
  venues : List Venue
  events : List Event
deriving Repr, DecidableEq

/-- Failure of a request: the `NotFoundError` raised by
`ErrorHandler.not_found`, or an uncaught repository exception, which the
catch-all handler in main.py turns into a 500 error response. -/
inductive ApiError where
  | notFound (entity : String) (entity_id : Nat)
  | serverError (e : DbError)
deriving Repr, DecidableEq

/-- `PaginatedResponse` (models.py lines 124-128). -/
structure PaginatedResponse where
  data : List Event
  pagination : PageMeta
  total : Nat
deriving Repr, DecidableEq

/-- `VenueRepository.find_by_id` (venue_repository.py lines 15-17) runs
`self.db.query(Venue).filter(Venue.id == venue_id).first()` — but `Venue`
here is the pydantic schema class imported from app/schemas/models.py
(venue_repository.py line 8), not the ORM entity, so `db.query(Venue)` raises
an unmapped-class error on every call and the lookup never returns. -/
def VenueRepository.find_by_id (db : Database) (venue_id : Nat) :
    Except DbError (Option Venue) :=
  .error (.unmappedClass "Venue")

/-- The `get_venue_events` handler: verify the venue exists via
`venue_repo.find_by_id` (which always raises, see above, surfacing as a 500),
then — on the never-reached success path — fetch events through the stub
`EventRepository` and wrap them in a `PaginatedResponse`. -/
def get_venue_events (db : Database) (venue_id : Nat) (page limit : Int)
    (upcoming_only : Bool) : Except ApiError PaginatedResponse :=
  match VenueRepository.find_by_id db venue_id with
  | .error e => .error (.serverError e)
  | .ok none => .error (.notFound "Venue" venue_id)
  | .ok (some _) =>
    let result :=
      if upcoming_only then stubEventRepository.find_upcoming_by_venue venue_id page limit
      else stubEventRepository.find_by_venue venue_id page limit
    .ok { data := result.data,
          pagination :=
            { page := page, limit := limit, total_pages := result.total_pages,
              has_next := result.has_next, has_prev := result.has_prev },
          total := result.total }

/-! ## Spec-side definitions and concrete test fixtures -/

/-- Event match tier as worded by the specification (§4.2): tier 1 for a title
match, tier 2 for an associated-artist-name match, tier 3 for a
description-only match.  This follows the spec's words and is used to compare
the specified ranking against the code's actual ordering. -/
def specEventTier (search_term : String) (e : Event) : Nat :=
  if icontains e.title search_term then 1
  else if e.artists.any (fun a => icontains a.name search_term) then 2
  else 3

/-- Fixture for the artist-ranking example, deliberately stored out of the
expected result order. -/
def beatlesDb : List Artist :=
  [{ id := 3, name := "The Beatles Cover Band", genres := ["rock"] },
   { id := 1, name := "Beatles", genres := ["rock"] },
   { id := 2, name := "Beatles Tribute", genres := ["rock"] }]

/-- Artist fixture that matches no term used below. -/
def plainArtist : Artist := { id := 7, name := "Quiet Quartet", genres := ["jazz"] }

/-- Event whose description alone contains "rock"; earliest datetime. -/
def descOnlyEvent : Event :=
  { id := 1, venue_id := 1, title := "Evening Show",
    description := some "A rock journey", event_datetime := 10, artists := [plainArtist] }

/-- Event whose title contains "rock"; latest datetime. -/
def titleMatchEvent : Event :=
  { id := 2, venue_id := 1, title := "Rock Night",
    description := none, event_datetime := 20, artists := [plainArtist] }

/-- Event with a matching title but no associated artists. -/
def artistlessEvent : Event :=
  { id := 3, venue_id := 1, title := "Rock Marathon",
    description := some "all rock", event_datetime := 5, artists := [] }

/-- Event table fixture for the event-search claims. -/
def eventFixtureDb : List Event := [titleMatchEvent, descOnlyEvent, artistlessEvent]

/-- Venue fixture on the antimeridian at the equator. -/
def farVenue : Venue :=
  { id := 1, name := "Distant Hall", city_id := 1,
    coordinates := { x := 180, y := 0 }, capacity := some 100, prosper_rank := 0 }

/-- One-venue table for the nearby-search claim. -/
def nearbyFixtureDb : List Venue := [farVenue]

/-- The null-island center used in the nearby-search claim. -/
def originPoint : GeoPoint := { x := 0, y := 0 }

/-- Search parameters violating the capacity cross-field invariant. -/
def badCapacityParams : SearchParams :=
  { q := "beatles", capacity_min := some 50, capacity_max := some 10 }

/-- Database fixture for the venue-events claim: one venue and two stored
events at that venue. -/
def venueEventsDb : Database :=
  { venues := [{ id := 1, name := "The Crocodile", city_id := 1,
                 coordinates := { x := 0, y := 0 }, capacity := some 500, prosper_rank := 3 }],
    events := [descOnlyEvent, titleMatchEvent] }

/-! ## Shared arithmetic lemma for pagination -/

/-- On nonnegative integers with a positive divisor, the code's
`math.ceil(total / limit)` value `(total + limit - 1) / limit` is the rational
ceiling from the specification. -/
theorem natCeilDiv_spec (total limit : Nat) (h : 1 ≤ limit) :
    (total + limit - 1) / limit = ⌈(total : ℚ) / (limit : ℚ)⌉₊ := by
  have hl0 : (0 : ℚ) < (limit : ℚ) := by exact_mod_cast h
  rcases Nat.eq_zero_or_pos total with h0 | hpos
  · subst h0
    rw [Nat.div_eq_of_lt (by omega)]
    simp
  · obtain ⟨n, r, hnr, hrlt, hn⟩ :
        ∃ n r, limit * n + r = total + limit - 1 ∧ r < limit ∧
          n = (total + limit - 1) / limit :=
      ⟨_, _, Nat.div_add_mod _ _, Nat.mod_lt _ (by omega), rfl⟩
    rw [← hn]
    have hcomm : limit * n = n * limit := Nat.mul_comm limit n
    have hsub : (n - 1) * limit = n * limit - limit := by
      rw [Nat.sub_mul, Nat.one_mul]
    have hn1 : 1 ≤ n := by
      rcases Nat.eq_zero_or_pos n with h | h
      · subst h; simp only [Nat.mul_zero, Nat.zero_add] at hnr; omega
      · exact h
    have hub : total ≤ n * limit := by omega
    have hlb : (n - 1) * limit < total := by omega
    rw [eq_comm, Nat.ceil_eq_iff (by omega)]
    constructor
    · rw [lt_div_iff₀ hl0]
      exact_mod_cast hlb
    · rw [div_le_iff₀ hl0]
      exact_mod_cast hub

/-! ## Claim theorems -/

/-- C1: for every `total ≥ 0`, `limit ∈ [1,50]`, `page ≥ 1`, the
`PaginationResult` metadata satisfies `total_pages = ceil(total/limit)`,
`has_next ↔ page < total_pages` and `has_prev ↔ page > 1`; in particular
total=23, limit=10, page=2 gives total_pages=3, has_next, has_prev. -/
theorem pagination_metadata_correct (data : List Nat) (total page limit : Nat)
    (hl1 : 1 ≤ limit) (hl50 : limit ≤ 50) (hp : 1 ≤ page) :
    ((PaginationResult.make data total page limit).total_pages =
        ⌈(total : ℚ) / (limit : ℚ)⌉₊ ∧
      ((PaginationResult.make data total page limit).has_next = true ↔
        page < (PaginationResult.make data total page limit).total_pages) ∧
      ((PaginationResult.make data total page limit).has_prev = true ↔ 1 < page)) ∧
    ((PaginationResult.make ([] : List Nat) 23 2 10).total_pages = 3 ∧
      (PaginationResult.make ([] : List Nat) 23 2 10).has_next = true ∧
      (PaginationResult.make ([] : List Nat) 23 2 10).has_prev = true) := by
  refine ⟨⟨?_, ?_, ?_⟩, by decide, by decide, by decide⟩
  · simp only [PaginationResult.make, if_pos (by omega : 0 < limit)]
    exact natCeilDiv_spec total limit hl1
  · simp [PaginationResult.make]
  · simp [PaginationResult.make]

/-- Instantiation of C1 at total=23, limit=10, page=2. -/
theorem pagination_metadata_correct_witness :
    (1 ≤ 10 ∧ 10 ≤ 50 ∧ 1 ≤ 2) ∧
    ((PaginationResult.make ([] : List Nat) 23 2 10).total_pages =
        ⌈(23 : ℚ) / (10 : ℚ)⌉₊ ∧
      ((PaginationResult.make ([] : List Nat) 23 2 10).has_next = true ↔
        2 < (PaginationResult.make ([] : List Nat) 23 2 10).total_pages) ∧
      ((PaginationResult.make ([] : List Nat) 23 2 10).has_prev = true ↔ 1 < 2)) :=
  ⟨by decide,
    (pagination_metadata_correct [] 23 2 10 (by decide) (by decide) (by decide)).1⟩

/-- C4 (code bug): every call of `search_by_name_or_genre` raises a
programming error — `func.case`/`func.array` render invalid SQL with
unadaptable tuple bind parameters — so the tier-ranked list the claim and the
method's docstring describe is never returned; on the claim's example the
tiers the broken CASE expression was meant to assign are nevertheless
1 (exact), 2 (prefix), 3 (substring). -/
theorem artist_search_always_raises :
    (∀ (db : List Artist) (t : String) (limit : Nat),
      search_by_name_or_genre db t limit =
        .error (.programmingError "func.case / func.array")) ∧
    search_by_name_or_genre beatlesDb "beatles" 20 =
      .error (.programmingError "func.case / func.array") ∧
    artistRankingCase "beatles" { id := 1, name := "Beatles", genres := ["rock"] } = 1 ∧
    artistRankingCase "beatles" { id := 2, name := "Beatles Tribute", genres := ["rock"] } = 2 ∧
    artistRankingCase "beatles"
      { id := 3, name := "The Beatles Cover Band", genres := ["rock"] } = 3 :=
  ⟨fun _ _ _ => rfl, rfl, by decide, by decide, by decide⟩

/-- C5 counterexample: `search_events` orders by `event_datetime` ascending,
not by match tier; the description-only match (spec tier 3) with the earlier
datetime is returned before the title match (spec tier 1), and an event whose
title matches but that has no associated artists is not returned at all. -/
theorem event_search_tier_counterexample :
    search_events eventFixtureDb "rock" 1 20 = [descOnlyEvent, titleMatchEvent] ∧
    specEventTier "rock" titleMatchEvent = 1 ∧
    specEventTier "rock" descOnlyEvent = 3 ∧
    ¬ List.Pairwise (fun e₁ e₂ => specEventTier "rock" e₁ ≤ specEventTier "rock" e₂)
        (search_events eventFixtureDb "rock" 1 20) ∧
    icontains artistlessEvent.title "rock" = true ∧
    artistlessEvent ∉ search_events eventFixtureDb "rock" 1 20 := by
  decide

/-- C5 as amended: every page of `search_events` is ordered by
`event_datetime` ascending, and the query's result sequence consists of
exactly the events that have at least one associated artist and in which the
term occurs case-insensitively in the title, the description, or an
associated artist's name; no match-tier ranking is applied. -/
theorem event_search_datetime_order (db : List Event) (t : String) (page limit : Nat) :
    (search_events db t page limit).Sorted eventDatetimeLe ∧
    (∀ e, e ∈ search_events_all db t ↔ e ∈ db ∧ eventJoinFilter t e = true) := by
  constructor
  · have h1 : (search_events_rows db t).Sorted eventRowLe :=
      List.sorted_insertionSort eventRowLe _
    have h2 : ((((search_events_rows db t).drop ((page - 1) * limit)).take
        limit)).Sorted eventRowLe :=
      List.Pairwise.sublist ((List.take_sublist _ _).trans (List.drop_sublist _ _)) h1
    exact List.Pairwise.sublist (dedupFirst_sublist _)
      (List.pairwise_map.mpr (h2.imp (fun h => h)))
  · intro e
    rw [search_events_all, mem_dedupFirst]
    constructor
    · intro h
      obtain ⟨hdb, a, ha, hm⟩ := mem_db_of_mem_rows_fst (List.Sublist.refl _) h
      refine ⟨hdb, ?_⟩
      rw [eventJoinFilter, List.any_eq_true]
      exact ⟨a, ha, hm⟩
    · rintro ⟨hdb, hf⟩
      rw [eventJoinFilter, List.any_eq_true] at hf
      obtain ⟨a, ha, hm⟩ := hf
      refine List.mem_map.mpr ⟨(e, a), ?_, rfl⟩
      refine (List.mem_insertionSort eventRowLe).mpr ?_
      exact List.mem_filter.mpr
        ⟨List.mem_flatMap.mpr ⟨e, hdb, List.mem_map.mpr ⟨a, ha, rfl⟩⟩, hm⟩

/-- Instantiation of C5's amended membership characterization. -/
theorem event_search_datetime_order_witness :
    titleMatchEvent ∈ search_events_all eventFixtureDb "rock" ↔
      titleMatchEvent ∈ eventFixtureDb ∧ eventJoinFilter "rock" titleMatchEvent = true :=
  (event_search_datetime_order eventFixtureDb "rock" 1 20).2 titleMatchEvent

/-- C10: `search_events` never returns an event with no associated artists,
because the inner joins to `EventArtist` and `Artist` produce no rows for such
an event, even when the term matches its title or description. -/
theorem event_search_requires_artist (db : List Event) (t : String) (page limit : Nat)
    (e : Event) (h : e ∈ search_events db t page limit) : e.artists ≠ [] := by
  unfold search_events at h
  rw [mem_dedupFirst] at h
  obtain ⟨-, a, ha, -⟩ := mem_db_of_mem_rows_fst
    ((List.take_sublist _ _).trans (List.drop_sublist _ _)) h
  intro hnil
  rw [hnil] at ha
  exact absurd ha (List.not_mem_nil a)

/-- Instantiation of C10 at the event fixture. -/
theorem event_search_requires_artist_witness :
    titleMatchEvent ∈ search_events eventFixtureDb "rock" 1 20 ∧
      titleMatchEvent.artists ≠ [] :=
  ⟨by decide,
    event_search_requires_artist eventFixtureDb "rock" 1 20 titleMatchEvent (by decide)⟩

/-- C3: `SearchService.search` and `SearchService.search_nearby` construct
`SearchResponse` without the required `query` and `pagination` fields (the
`page`/`limit` keyword arguments are not model fields and are ignored), so
every invocation raises a model validation error instead of returning a
response. -/
theorem search_service_always_raises (p : SearchParams) (np : NearbySearchParams)
    (q : Option String) (ct : String) :
    SearchService.search p = .error (.missingFields ["query", "pagination"]) ∧
    SearchService.search_nearby np q ct = .error (.missingFields ["query", "pagination"]) :=
  ⟨rfl, rfl⟩

/-- C2: the placeholder `SearchService.search` never produces the specified
merged/paginated response; at a concrete query it raises the missing-fields
validation error, and the full endpoint does the same, so `total` never equals
the merged candidate count and `results` is never the page slice. -/
theorem search_never_merges_candidates :
    SearchService.search { q := "beatles" } =
      .error (.missingFields ["query", "pagination"]) ∧
    searchEndpoint { q := "beatles" } =
      .error (.missingFields ["query", "pagination"]) := by
  constructor
  · rfl
  · rfl

/-- C6 (code bug): `find_nearby` cannot execute at all — the module queries
the pydantic `Venue` schema, so every call raises an unmapped-class error
(surfacing as a 500); the 10 km origin-centered search over the antimeridian
fixture produces that error, not a venue list, and the outcome is the same
error for every center, radius, limit and capacity filter — never the
radius-filtered, distance-sorted sequence the claim describes. -/
theorem find_nearby_always_raises :
    find_nearby nearbyFixtureDb originPoint 10 20 none =
      .error (.unmappedClass "Venue") ∧
    (∀ (db : List Venue) (p : GeoPoint) (r : Rat) (limit : Nat) (mc : Option Int),
      find_nearby db p r limit mc = .error (.unmappedClass "Venue")) :=
  ⟨rfl, fun _ _ _ _ _ => rfl⟩

/-- C7: a request with `capacity_min > capacity_max` fails with a
`ValidationError` rather than returning a result.  (No cross-field capacity
check exists: when the per-field validation passes, the failure is the
unconditional missing-fields `ValidationError` that `SearchService.search`
raises for every request.) -/
theorem capacity_range_search_fails (p : SearchParams) (lo hi : Int)
    (hmin : p.capacity_min = some lo) (hmax : p.capacity_max = some hi) (hlt : hi < lo) :
    ∃ e, searchEndpoint p = Except.error e := by
  cases hv : validateSearchParams p with
  | error e =>
    refine ⟨e, ?_⟩
    unfold searchEndpoint
    rw [hv]
    rfl
  | ok params =>
    refine ⟨.missingFields ["query", "pagination"], ?_⟩
    unfold searchEndpoint
    rw [hv]
    rfl

/-- Instantiation of C7 at capacity_min=50, capacity_max=10. -/
theorem capacity_range_search_fails_witness :
    badCapacityParams.capacity_min = some 50 ∧ badCapacityParams.capacity_max = some 10 ∧
      (10 : Int) < 50 ∧ ∃ e, searchEndpoint badCapacityParams = Except.error e :=
  ⟨rfl, rfl, by decide,
    capacity_range_search_fails badCapacityParams 50 10 rfl rfl (by decide)⟩

/-- C8 counterexample: a limit of 100 is rejected with a field validation
error (`le=50`), not clamped to 50, and a page of 0 is rejected (`ge=1`), not
coerced to 1. -/
theorem limit_not_clamped_counterexample :
    validateSearchParams { q := "beatles", limit := 100 } =
      .error (.fieldConstraint "limit") ∧
    validateSearchParams { q := "beatles", page := 0 } =
      .error (.fieldConstraint "page") ∧
    searchEndpoint { q := "beatles", limit := 100 } =
      .error (.fieldConstraint "limit") := by
  refine ⟨rfl, rfl, rfl⟩

set_option maxHeartbeats 1600000 in
/-- C8 as amended: the declared `ge`/`le` constraints mean an out-of-range
`limit` (outside [1,50]) or `page` (< 1) causes the request to be rejected
with a validation error on that field, and in-range values pass through
unchanged; no clamping or coercion is performed. -/
theorem page_limit_validated_not_clamped (p : SearchParams) :
    (∀ p', validateSearchParams p = .ok p' →
      p' = p ∧ 1 ≤ p.page ∧ 1 ≤ p.limit ∧ p.limit ≤ 50) ∧
    (p.page < 1 ∨ p.limit < 1 ∨ 50 < p.limit →
      ∃ e, validateSearchParams p = .error e) := by
  constructor
  · intro p' h
    unfold validateSearchParams at h
    split_ifs at h with h1 h2 h3 h4 h5 h6 h7 h8 h9
    injection h with h'
    exact ⟨h'.symm, by omega, by omega, by omega⟩
  · intro h
    unfold validateSearchParams
    split_ifs <;>
      first
        | exact ⟨_, rfl⟩
        | omega

/-- Instantiation of C8's amended claim at page=2, limit=10 (accepted
unchanged) and page=0, limit=100 (rejected). -/
theorem page_limit_validated_not_clamped_witness :
    (({ q := "beatles", page := 2, limit := 10 } : SearchParams) =
        { q := "beatles", page := 2, limit := 10 } ∧
      1 ≤ ({ q := "beatles", page := 2, limit := 10 } : SearchParams).page ∧
      1 ≤ ({ q := "beatles", page := 2, limit := 10 } : SearchParams).limit ∧
      ({ q := "beatles", page := 2, limit := 10 } : SearchParams).limit ≤ 50) ∧
    ∃ e, validateSearchParams { q := "beatles", page := 0, limit := 100 } = .error e :=
  ⟨(page_limit_validated_not_clamped { q := "beatles", page := 2, limit := 10 }).1
      { q := "beatles", page := 2, limit := 10 } rfl,
    (page_limit_validated_not_clamped { q := "beatles", page := 0, limit := 100 }).2
      (by decide)⟩

/-- C9 counterexample: although the fixture database stores the venue (id 1)
and two events at that venue, the endpoint does not return the empty payload
the claim describes -- it returns no payload at all. -/
theorem venue_events_counterexample :
    (∃ v ∈ venueEventsDb.venues, v.id = 1) ∧ venueEventsDb.events.length = 2 ∧
    get_venue_events venueEventsDb 1 1 10 true ≠
      .ok { data := [],
            pagination := { page := 1, limit := 10, total_pages := 0,
                            has_next := false, has_prev := false },
            total := 0 } :=
  ⟨by decide, by decide, fun hcon => Except.noConfusion hcon⟩

/-- C9 as amended: every venue-events request fails before the stub
`EventRepository` is consulted: the venue-existence lookup queries the
pydantic `Venue` schema and raises on every call, surfacing as a 500 server
error, for every database, venue id, page, limit and flag. -/
theorem venue_events_always_error (db : Database) (venue_id : Nat) (page limit : Int)
    (upcoming_only : Bool) :
    get_venue_events db venue_id page limit upcoming_only =
      .error (.serverError (.unmappedClass "Venue")) :=
  rfl

end VenueExplorer
